import Mathlib

/-!
Verification of the BMP280 barometer driver (`src/drv_bmp280.c`).

Shallow embedding conventions:
* C `float` arithmetic is modelled exactly over `ℚ`; the compensation
  formulas are transcribed term by term from the source.
* A C cast `(int32_t)x` applied to a floating-point value truncates
  toward zero; this is `qtrunc` below.  (All values exercised here are
  far inside the `int32_t` range, where the C cast is defined.)
* The file-static globals (`bmp280_chip_id`, `bmp280InitDone`,
  `bmp280_cal`, `bmp280_up`, `bmp280_ut`) form an explicit state record
  `bmp280_state` threaded through the operations.
* Bus traffic (`i2cRead` / `i2cWrite`) is modelled by an environment
  supplying the bytes the device would return and by an explicit trace
  of `BusOp`s emitted by each operation.
* Output pointers of `bmp280_calculate` are modelled as `Bool` flags
  (`true` = non-null) with `Option` results (`none` = store skipped).
-/

/-- Truncation toward zero of a rational, the semantics of the C cast
`(int32_t)` applied to a float value (for in-range values). -/
def qtrunc (q : ℚ) : ℤ := if 0 ≤ q then ⌊q⌋ else ⌈q⌉

/-- `#define BMP280_I2C_ADDR (0x76)` -/
def BMP280_I2C_ADDR : ℕ := 0x76

/-- `#define BMP280_DEFAULT_CHIP_ID (0x58)` -/
def BMP280_DEFAULT_CHIP_ID : ℕ := 0x58

/-- `#define BMP280_CHIP_ID_REG (0xD0)` -/
def BMP280_CHIP_ID_REG : ℕ := 0xD0

/-- `#define BMP280_CTRL_MEAS_REG (0xF4)` -/
def BMP280_CTRL_MEAS_REG : ℕ := 0xF4

/-- `#define BMP280_PRESSURE_MSB_REG (0xF7)` -/
def BMP280_PRESSURE_MSB_REG : ℕ := 0xF7

/-- `#define BMP280_FORCED_MODE (0x01)` -/
def BMP280_FORCED_MODE : ℕ := 0x01

/-- `#define BMP280_TEMPERATURE_CALIB_DIG_T1_LSB_REG (0x88)` -/
def BMP280_TEMPERATURE_CALIB_DIG_T1_LSB_REG : ℕ := 0x88

/-- `#define BMP280_PRESSURE_TEMPERATURE_CALIB_DATA_LENGTH (24)` -/
def BMP280_PRESSURE_TEMPERATURE_CALIB_DATA_LENGTH : ℕ := 24

/-- `#define BMP280_DATA_FRAME_SIZE (6)` -/
def BMP280_DATA_FRAME_SIZE : ℕ := 6

/-- `#define BMP280_OVERSAMP_1X (0x01)` -/
def BMP280_OVERSAMP_1X : ℕ := 0x01

/-- `#define BMP280_OVERSAMP_8X (0x04)` -/
def BMP280_OVERSAMP_8X : ℕ := 0x04

/-- `#define BMP280_PRESSURE_OSR (BMP280_OVERSAMP_8X)` -/
def BMP280_PRESSURE_OSR : ℕ := BMP280_OVERSAMP_8X

/-- `#define BMP280_TEMPERATURE_OSR (BMP280_OVERSAMP_1X)` -/
def BMP280_TEMPERATURE_OSR : ℕ := BMP280_OVERSAMP_1X

/-- `#define BMP280_MODE (BMP280_PRESSURE_OSR << 2 | BMP280_TEMPERATURE_OSR << 5 | BMP280_FORCED_MODE)` -/
def BMP280_MODE : ℕ :=
  BMP280_PRESSURE_OSR <<< 2 ||| BMP280_TEMPERATURE_OSR <<< 5 ||| BMP280_FORCED_MODE

/-- `#define T_INIT_MAX (20)` -/
def T_INIT_MAX : ℕ := 20

/-- `#define T_MEASURE_PER_OSRS_MAX (37)` -/
def T_MEASURE_PER_OSRS_MAX : ℕ := 37

/-- `#define T_SETUP_PRESSURE_MAX (10)` -/
def T_SETUP_PRESSURE_MAX : ℕ := 10

/-- `struct bmp280_calib_param_t`: eleven calibration coefficients plus the
mutable fine-temperature accumulator.  `dig_T1`/`dig_P1` are `uint16_t`,
the other `dig_*` are `int16_t`, `t_fine` is `int32_t`; all are carried
as `ℤ` (claims never exercise coefficient overflow). -/
structure bmp280_calib_param_t where
  dig_T1 : ℤ
  dig_T2 : ℤ
  dig_T3 : ℤ
  dig_P1 : ℤ
  dig_P2 : ℤ
  dig_P3 : ℤ
  dig_P4 : ℤ
  dig_P5 : ℤ
  dig_P6 : ℤ
  dig_P7 : ℤ
  dig_P8 : ℤ
  dig_P9 : ℤ
  t_fine : ℤ
deriving Repr, DecidableEq

/-- The driver's file-static mutable globals. -/
structure bmp280_state where
  bmp280_chip_id : ℕ
  bmp280InitDone : Bool
  bmp280_cal : bmp280_calib_param_t
  bmp280_up : ℤ
  bmp280_ut : ℤ
deriving Repr, DecidableEq

/-- One bus transaction (`i2cRead` / `i2cWrite`), recorded in traces. -/
inductive BusOp where
  | read (addr reg len : ℕ)
  | write (addr reg val : ℕ)
deriving Repr, DecidableEq

/-- What the device answers on the bus: the chip-id byte returned by the
identity read, and the calibration coefficients delivered by the 24-byte
calibration burst read (the burst covers exactly the twelve `dig_*`
fields; `t_fine` is not part of the 24 bytes). -/
structure BusEnv where
  chip_id : ℕ
  calib : bmp280_calib_param_t
deriving Repr

/-- `float bmp280_compensate_T(int32_t adc_T)`, transcribed from the
source with `float` modelled as `ℚ`.  Returns the temperature in °C and
the updated calibration record (`bmp280_cal.t_fine = (int32_t)(var1 + var2)`). -/
def bmp280_compensate_T (cal : bmp280_calib_param_t) (adc_T : ℤ) :
    ℚ × bmp280_calib_param_t :=
  let var1 : ℚ := ((adc_T : ℚ) / 16384 - (cal.dig_T1 : ℚ) / 1024) * (cal.dig_T2 : ℚ)
  let var2 : ℚ := (((adc_T : ℚ) / 131072 - (cal.dig_T1 : ℚ) / 8192) *
      ((adc_T : ℚ) / 131072 - (cal.dig_T1 : ℚ) / 8192)) * (cal.dig_T3 : ℚ)
  let T : ℚ := (var1 + var2) / 5120
  (T, { cal with t_fine := qtrunc (var1 + var2) })

/-- The value of `var1` in `bmp280_compensate_P` at the point of the
division-by-zero guard (`var1 = (1.0f + var1 / 32768.0f) * dig_P1`):
the first calibration-derived divisor of the pressure formula. -/
def bmp280_P_divisor (cal : bmp280_calib_param_t) : ℚ :=
  let var1 : ℚ := (cal.t_fine : ℚ) / 2 - 64000
  let var1' : ℚ := ((cal.dig_P3 : ℚ) * var1 * var1 / 524288 +
      (cal.dig_P2 : ℚ) * var1) / 524288
  (1 + var1' / 32768) * (cal.dig_P1 : ℚ)

/-- `float bmp280_compensate_P(int32_t adc_P)`, transcribed from the
source with `float` modelled as `ℚ`.  Reads `cal.t_fine`; returns `0`
when the divisor `var1` is zero (the source's division-by-zero guard). -/
def bmp280_compensate_P (cal : bmp280_calib_param_t) (adc_P : ℤ) : ℚ :=
  let var1 : ℚ := (cal.t_fine : ℚ) / 2 - 64000
  let var2 : ℚ := var1 * var1 * (cal.dig_P6 : ℚ) / 32768
  let var2 : ℚ := var2 + var1 * (cal.dig_P5 : ℚ) * 2
  let var2 : ℚ := var2 / 4 + (cal.dig_P4 : ℚ) * 65536
  let var1 : ℚ := ((cal.dig_P3 : ℚ) * var1 * var1 / 524288 +
      (cal.dig_P2 : ℚ) * var1) / 524288
  let var1 : ℚ := (1 + var1 / 32768) * (cal.dig_P1 : ℚ)
  if var1 = 0 then 0
  else
    let p : ℚ := 1048576 - (adc_P : ℚ)
    let p : ℚ := (p - var2 / 4096) * 6250 / var1
    let var1 : ℚ := (cal.dig_P9 : ℚ) * p * p / 2147483648
    let var2 : ℚ := p * (cal.dig_P8 : ℚ) / 32768
    p + (var1 + var2 + (cal.dig_P7 : ℚ)) / 16

/-- `static void bmp280_calculate(int32_t *pressure, int32_t *temperature)`.
The two pointers are modelled by `Bool` flags (`true` = non-null);
`none` in the result means the corresponding store was skipped.
Note the source computes `*temperature = (int32_t)t * 100` — the float
is truncated first and the integer then scaled by 100. -/
def bmp280_calculate (s : bmp280_state) (pressure temperature : Bool) :
    Option ℤ × Option ℤ × bmp280_state :=
  let tc := bmp280_compensate_T s.bmp280_cal s.bmp280_ut
  let t : ℚ := tc.1
  let s' : bmp280_state := { s with bmp280_cal := tc.2 }
  let p : ℚ := bmp280_compensate_P s'.bmp280_cal s'.bmp280_up
  (if pressure then some (qtrunc p) else none,
   if temperature then some (qtrunc t * 100) else none,
   s')

/-- `static void bmp280_get_up(void)`: burst-reads the 6-byte frame at
the pressure MSB register and unpacks the two 20-bit raw values.
`data` is the byte buffer the bus read filled in. -/
def bmp280_get_up (s : bmp280_state) (data : Fin 6 → ℕ) :
    bmp280_state × List BusOp :=
  ({ s with
      bmp280_up := ((data 0 <<< 12) ||| (data 1 <<< 4) ||| (data 2 >>> 4) : ℕ)
      bmp280_ut := ((data 3 <<< 12) ||| (data 4 <<< 4) ||| (data 5 >>> 4) : ℕ) },
   [BusOp.read BMP280_I2C_ADDR BMP280_PRESSURE_MSB_REG BMP280_DATA_FRAME_SIZE])

/-- `static void bmp280_start_up(void)`: re-arms a forced-mode conversion
by rewriting the control register. -/
def bmp280_start_up (s : bmp280_state) : bmp280_state × List BusOp :=
  (s, [BusOp.write BMP280_I2C_ADDR BMP280_CTRL_MEAS_REG BMP280_MODE])

/-- The `baro->up_delay` expression assigned in `bmp280Detect`, as a
function of the two oversampling codes. -/
def bmp280_up_delay (osr_t osr_p : ℕ) : ℕ :=
  ((T_INIT_MAX +
      T_MEASURE_PER_OSRS_MAX * (((1 <<< osr_t) >>> 1) + ((1 <<< osr_p) >>> 1)) +
      (if osr_p ≠ 0 then T_SETUP_PRESSURE_MAX else 0) + 15) / 16) * 1000

/-- The spec's closed-form latency bound, as a function of the per-channel
sampling counts (`osrT_count`, `osrP_count`):
`((T_INIT_MAX + T_MEASURE_PER_OSRS_MAX*(osrT_count + osrP_count) + T_SETUP_PRESSURE_MAX + 15) / 16) * 1000`. -/
def latencyBoundClosedForm (osrT_count osrP_count : ℕ) : ℕ :=
  ((T_INIT_MAX + T_MEASURE_PER_OSRS_MAX * (osrT_count + osrP_count) +
      T_SETUP_PRESSURE_MAX + 15) / 16) * 1000

/-- The capability record `baro_t` as far as this driver fills it in:
the per-channel latencies (the function-pointer fields carry no data
beyond being set, which is captured by the record existing at all). -/
structure baro_t where
  ut_delay : ℕ
  up_delay : ℕ
deriving Repr, DecidableEq

/-- `bool bmp280Detect(baro_t *baro)`.  Returns the C result, the new
global state, the populated capability record (`none` when the function
returned without touching `baro`), and the trace of bus operations
performed, in order.  (`delay(20)` is a pure time delay, not a bus
transaction, so it does not appear in the trace.) -/
def bmp280Detect (env : BusEnv) (s : bmp280_state) :
    Bool × bmp280_state × Option baro_t × List BusOp :=
  if s.bmp280InitDone then (true, s, none, [])
  else
    let s1 : bmp280_state := { s with bmp280_chip_id := env.chip_id }
    if s1.bmp280_chip_id ≠ BMP280_DEFAULT_CHIP_ID then
      (false, s1, none, [BusOp.read BMP280_I2C_ADDR BMP280_CHIP_ID_REG 1])
    else
      let s2 : bmp280_state := { s1 with
        bmp280_cal := { env.calib with t_fine := s1.bmp280_cal.t_fine },
        bmp280InitDone := true }
      (true, s2,
       some { ut_delay := 0,
              up_delay := bmp280_up_delay BMP280_TEMPERATURE_OSR BMP280_PRESSURE_OSR },
       [BusOp.read BMP280_I2C_ADDR BMP280_CHIP_ID_REG 1,
        BusOp.read BMP280_I2C_ADDR BMP280_TEMPERATURE_CALIB_DIG_T1_LSB_REG
          BMP280_PRESSURE_TEMPERATURE_CALIB_DATA_LENGTH,
        BusOp.write BMP280_I2C_ADDR BMP280_CTRL_MEAS_REG BMP280_MODE])

/-- Number of 24-byte calibration-region reads in a bus trace. -/
def countCalibReads (l : List BusOp) : ℕ :=
  l.countP fun op => op =
    BusOp.read BMP280_I2C_ADDR BMP280_TEMPERATURE_CALIB_DIG_T1_LSB_REG
      BMP280_PRESSURE_TEMPERATURE_CALIB_DATA_LENGTH

/-- Number of control-register writes in a bus trace. -/
def countCtrlWrites (l : List BusOp) : ℕ :=
  l.countP fun op =>
    match op with
    | BusOp.write _ reg _ => reg = BMP280_CTRL_MEAS_REG
    | _ => false

/-- The published reference temperature calibration from the spec
(`dig_T1=27504, dig_T2=26435, dig_T3=-1000`); pressure coefficients and
`t_fine` zeroed (unused by the temperature formula). -/
def referenceCalib : bmp280_calib_param_t :=
  { dig_T1 := 27504, dig_T2 := 26435, dig_T3 := -1000,
    dig_P1 := 0, dig_P2 := 0, dig_P3 := 0, dig_P4 := 0, dig_P5 := 0,
    dig_P6 := 0, dig_P7 := 0, dig_P8 := 0, dig_P9 := 0, t_fine := 0 }

/-- The driver's globals at program start (all statics zero-initialized). -/
def initialState : bmp280_state :=
  { bmp280_chip_id := 0, bmp280InitDone := false,
    bmp280_cal := { dig_T1 := 0, dig_T2 := 0, dig_T3 := 0, dig_P1 := 0,
                    dig_P2 := 0, dig_P3 := 0, dig_P4 := 0, dig_P5 := 0,
                    dig_P6 := 0, dig_P7 := 0, dig_P8 := 0, dig_P9 := 0,
                    t_fine := 0 },
    bmp280_up := 0, bmp280_ut := 0 }

/-- The reference state used for concrete compensation runs: reference
calibration, raw temperature 519888, raw pressure 415148. -/
def referenceState : bmp280_state :=
  { bmp280_chip_id := 0, bmp280InitDone := false,
    bmp280_cal := referenceCalib, bmp280_up := 415148, bmp280_ut := 519888 }

/-- A bus environment whose device answers the expected chip id. -/
def envOK : BusEnv := { chip_id := 0x58, calib := referenceCalib }

/-- A bus environment whose device answers a wrong chip id. -/
def envBad : BusEnv := { chip_id := 0x57, calib := referenceCalib }

/-- **C9.** With calibration `dig_T1=27504, dig_T2=26435, dig_T3=-1000`
and raw temperature 519888, `bmp280_compensate_T` returns a temperature
within 0.01 °C of 25.08 °C and stores the truncation of the internal
intermediate sum — the documented reference value 128422 — into the
fine-temperature accumulator `t_fine`. -/
theorem bmp280_compensate_T_reference :
    (bmp280_compensate_T referenceCalib 519888).2.t_fine = 128422 ∧
    |(bmp280_compensate_T referenceCalib 519888).1 - 2508 / 100| ≤ 1 / 100 := by
  constructor
  · simp only [bmp280_compensate_T, referenceCalib, qtrunc]
    norm_num [Int.floor_eq_iff]
  · simp only [bmp280_compensate_T, referenceCalib]
    rw [abs_le]
    constructor <;> norm_num

/-- **C5.** For every calibration record and raw pressure,
`bmp280_compensate_P` returns exactly `0` whenever the first
calibration-derived divisor (`bmp280_P_divisor`, built from `dig_P1`,
`dig_P2`, `dig_P3` and `t_fine`) is exactly zero, so the division by
that divisor is never performed with a zero denominator. -/
theorem bmp280_compensate_P_zero_divisor
    (cal : bmp280_calib_param_t) (adc_P : ℤ)
    (h : bmp280_P_divisor cal = 0) :
    bmp280_compensate_P cal adc_P = 0 := by
  simp only [bmp280_P_divisor] at h
  simp only [bmp280_compensate_P]
  rw [if_pos h]

/-- Witness for `bmp280_compensate_P_zero_divisor`: with `dig_P1 = 0`
(as in `referenceCalib`) the divisor is zero and the result is `0`. -/
theorem bmp280_compensate_P_zero_divisor_witness :
    bmp280_P_divisor referenceCalib = 0 ∧
    bmp280_compensate_P referenceCalib 415148 = 0 := by
  have h : bmp280_P_divisor referenceCalib = 0 := by
    simp only [bmp280_P_divisor, referenceCalib]
    norm_num
  exact ⟨h, bmp280_compensate_P_zero_divisor referenceCalib 415148 h⟩

/-- **C1 counterexample.** The claim says the temperature returned by
`bmp280_calculate` is the truncation of `100 *` the float from
`bmp280_compensate_T`.  At the reference frame the float is ≈25.082 °C:
the code returns `trunc(t) * 100 = 2500`, while `trunc(100 * t) = 2508`,
so the claim is false as stated. -/
theorem bmp280_calculate_temperature_trunc_order_cex :
    (bmp280_calculate referenceState true true).2.1 ≠
      some (qtrunc (100 * (bmp280_compensate_T referenceState.bmp280_cal
        referenceState.bmp280_ut).1)) := by
  have hL : (bmp280_calculate referenceState true true).2.1 = some 2500 := by
    simp only [bmp280_calculate, bmp280_compensate_T, referenceState,
      referenceCalib, qtrunc, if_true]
    norm_num [Int.floor_eq_iff]
  have hR : qtrunc (100 * (bmp280_compensate_T referenceState.bmp280_cal
      referenceState.bmp280_ut).1) = 2508 := by
    simp only [bmp280_compensate_T, referenceState, referenceCalib, qtrunc]
    norm_num [Int.floor_eq_iff]
  rw [hL, hR]
  decide

/-- **C1 (amended).** For every raw frame, the temperature returned by
`bmp280_calculate` equals 100 times the truncation of the float returned
by `bmp280_compensate_T` for the stored raw temperature (truncate first,
then scale ×100). -/
theorem bmp280_calculate_temperature_trunc_then_scale
    (s : bmp280_state) (pb : Bool) :
    (bmp280_calculate s pb true).2.1 =
      some (qtrunc ((bmp280_compensate_T s.bmp280_cal s.bmp280_ut).1) * 100) := by
  simp [bmp280_calculate]

/-- **C2.** In every `bmp280_calculate` call, temperature compensation
runs strictly before pressure compensation: the calibration record
consumed by `bmp280_compensate_P` is exactly the one freshly produced by
`bmp280_compensate_T` from the current frame's raw temperature, and the
pressure output is unchanged if the stale `t_fine` left in the incoming
state is replaced by any other value. -/
theorem bmp280_calculate_t_fine_fresh (s : bmp280_state) (pb tb : Bool) :
    ((bmp280_calculate s pb tb).2.2.bmp280_cal =
      (bmp280_compensate_T s.bmp280_cal s.bmp280_ut).2) ∧
    ((bmp280_calculate s true tb).1 =
      some (qtrunc (bmp280_compensate_P
        (bmp280_compensate_T s.bmp280_cal s.bmp280_ut).2 s.bmp280_up))) ∧
    (∀ stale : ℤ,
      (bmp280_calculate
        { s with bmp280_cal := { s.bmp280_cal with t_fine := stale } } pb tb).1 =
      (bmp280_calculate s pb tb).1) := by
  refine ⟨by simp [bmp280_calculate], by simp [bmp280_calculate], fun stale => ?_⟩
  simp [bmp280_calculate, bmp280_compensate_T]

/-- **C10.** `bmp280_calculate` tolerates null output pointers: a null
pressure (resp. temperature) pointer skips only that store, the non-null
output is still written with its usual value, and the fine-temperature
accumulator is still recomputed from the current frame regardless of the
pointer flags. -/
theorem bmp280_calculate_null_tolerant (s : bmp280_state) (pb tb : Bool) :
    ((bmp280_calculate s false tb).1 = none) ∧
    ((bmp280_calculate s pb false).2.1 = none) ∧
    ((bmp280_calculate s true tb).1 =
      some (qtrunc (bmp280_compensate_P
        (bmp280_compensate_T s.bmp280_cal s.bmp280_ut).2 s.bmp280_up))) ∧
    ((bmp280_calculate s pb true).2.1 =
      some (qtrunc ((bmp280_compensate_T s.bmp280_cal s.bmp280_ut).1) * 100)) ∧
    ((bmp280_calculate s pb tb).2.2.bmp280_cal.t_fine =
      ((bmp280_compensate_T s.bmp280_cal s.bmp280_ut).2).t_fine) := by
  refine ⟨by simp [bmp280_calculate], by simp [bmp280_calculate],
    by simp [bmp280_calculate], by simp [bmp280_calculate],
    by simp [bmp280_calculate]⟩

/-- Helper: a 20-bit bound for the packed triplet
`(b0 <<< 12) ||| (b1 <<< 4) ||| (b2 >>> 4)` when each byte is < 256. -/
lemma packed_triplet_lt (b0 b1 b2 : ℕ) (h0 : b0 < 256) (h1 : b1 < 256)
    (h2 : b2 < 256) : (b0 <<< 12) ||| (b1 <<< 4) ||| (b2 >>> 4) < 1048576 := by
  have e : (1048576 : ℕ) = 2 ^ 20 := by norm_num
  rw [e]
  refine Nat.or_lt_two_pow (Nat.or_lt_two_pow ?_ ?_) ?_
  · rw [Nat.shiftLeft_eq]
    calc b0 * 2 ^ 12 < 256 * 2 ^ 12 := by
          exact Nat.mul_lt_mul_of_lt_of_le h0 le_rfl (by norm_num)
      _ = 2 ^ 20 := by norm_num
  · rw [Nat.shiftLeft_eq]
    calc b1 * 2 ^ 4 < 256 * 2 ^ 4 := by
          exact Nat.mul_lt_mul_of_lt_of_le h1 le_rfl (by norm_num)
      _ ≤ 2 ^ 20 := by norm_num
  · calc b2 >>> 4 ≤ b2 := by
          rw [Nat.shiftRight_eq_div_pow]
          exact Nat.div_le_self b2 (2 ^ 4)
      _ < 2 ^ 20 := lt_trans h2 (by norm_num)

/-- **C3.** For every 6-byte frame handed to `bmp280_get_up`, the stored
raw pressure is `(b0<<12)|(b1<<4)|(b2>>4)`, the stored raw temperature is
`(b3<<12)|(b4<<4)|(b5>>4)`, and both lie in `0..1048575`. -/
theorem bmp280_get_up_decode_spec (s : bmp280_state) (data : Fin 6 → ℕ)
    (h : ∀ i : Fin 6, data i < 256) :
    ((bmp280_get_up s data).1.bmp280_up =
      ((data 0 <<< 12) ||| (data 1 <<< 4) ||| (data 2 >>> 4) : ℕ)) ∧
    ((bmp280_get_up s data).1.bmp280_ut =
      ((data 3 <<< 12) ||| (data 4 <<< 4) ||| (data 5 >>> 4) : ℕ)) ∧
    (0 ≤ (bmp280_get_up s data).1.bmp280_up ∧
      (bmp280_get_up s data).1.bmp280_up < 1048576) ∧
    (0 ≤ (bmp280_get_up s data).1.bmp280_ut ∧
      (bmp280_get_up s data).1.bmp280_ut < 1048576) := by
  refine ⟨rfl, rfl, ⟨Int.ofNat_nonneg _, ?_⟩, ⟨Int.ofNat_nonneg _, ?_⟩⟩
  · show ((((data 0 <<< 12) ||| (data 1 <<< 4) ||| (data 2 >>> 4) : ℕ) : ℤ) < 1048576)
    exact_mod_cast packed_triplet_lt _ _ _ (h 0) (h 1) (h 2)
  · show ((((data 3 <<< 12) ||| (data 4 <<< 4) ||| (data 5 >>> 4) : ℕ) : ℤ) < 1048576)
    exact_mod_cast packed_triplet_lt _ _ _ (h 3) (h 4) (h 5)

/-- Witness for `bmp280_get_up_decode_spec` at the spec's end-to-end
frame `[0x5A, 0x3C, 0x10, 0x80, 0x00, 0x00]`. -/
theorem bmp280_get_up_decode_spec_witness :
    (∀ i : Fin 6, (![0x5A, 0x3C, 0x10, 0x80, 0x00, 0x00] : Fin 6 → ℕ) i < 256) ∧
    ((bmp280_get_up initialState ![0x5A, 0x3C, 0x10, 0x80, 0x00, 0x00]).1.bmp280_up =
        ((0x5A <<< 12) ||| (0x3C <<< 4) ||| (0x10 >>> 4) : ℕ) ∧
      (bmp280_get_up initialState ![0x5A, 0x3C, 0x10, 0x80, 0x00, 0x00]).1.bmp280_ut =
        ((0x80 <<< 12) ||| (0x00 <<< 4) ||| (0x00 >>> 4) : ℕ) ∧
      (0 ≤ (bmp280_get_up initialState ![0x5A, 0x3C, 0x10, 0x80, 0x00, 0x00]).1.bmp280_up ∧
        (bmp280_get_up initialState ![0x5A, 0x3C, 0x10, 0x80, 0x00, 0x00]).1.bmp280_up < 1048576) ∧
      (0 ≤ (bmp280_get_up initialState ![0x5A, 0x3C, 0x10, 0x80, 0x00, 0x00]).1.bmp280_ut ∧
        (bmp280_get_up initialState ![0x5A, 0x3C, 0x10, 0x80, 0x00, 0x00]).1.bmp280_ut < 1048576)) :=
  ⟨by decide, bmp280_get_up_decode_spec initialState _ (by decide)⟩

/-- **C4 counterexample.** The spec's arithmetic is wrong: the decode of
the byte triplet `(0xAB, 0xCD, 0xE0)` is `0xABCDE = 703710`, not 703182,
so `bmp280_get_up` applied to a frame starting with that triplet does not
store 703182. -/
theorem raw_decode_example_cex :
    (bmp280_get_up initialState ![0xAB, 0xCD, 0xE0, 0, 0, 0]).1.bmp280_up ≠
      703182 := by
  decide

/-- **C4 (amended).** The decode of the byte triplet `(0xAB, 0xCD, 0xE0)`
is `(0xAB<<12)|(0xCD<<4)|(0xE0>>4) = 703710`, and that is what
`bmp280_get_up` stores for a frame starting with that triplet. -/
theorem raw_decode_example_value :
    (bmp280_get_up initialState ![0xAB, 0xCD, 0xE0, 0, 0, 0]).1.bmp280_up =
      ((0xAB <<< 12) ||| (0xCD <<< 4) ||| (0xE0 >>> 4) : ℕ) ∧
    ((0xAB <<< 12) ||| (0xCD <<< 4) ||| (0xE0 >>> 4) : ℕ) = 703710 := by
  constructor
  · rfl
  · decide

/-- **C6.** `bmp280Detect` is idempotent after a first success: starting
uninitialized, if the first call succeeds then the two calls together
perform exactly one 24-byte calibration read and one control-register
write, and any subsequent call returns `true` immediately, changes no
state, populates nothing and emits no bus traffic. -/
theorem bmp280Detect_idempotent (env env' : BusEnv) (s : bmp280_state)
    (h0 : s.bmp280InitDone = false)
    (h1 : (bmp280Detect env s).1 = true) :
    countCalibReads ((bmp280Detect env s).2.2.2 ++
      (bmp280Detect env' (bmp280Detect env s).2.1).2.2.2) = 1 ∧
    countCtrlWrites ((bmp280Detect env s).2.2.2 ++
      (bmp280Detect env' (bmp280Detect env s).2.1).2.2.2) = 1 ∧
    (∀ env'' : BusEnv,
      bmp280Detect env'' (bmp280Detect env s).2.1 =
        (true, (bmp280Detect env s).2.1, none, [])) := by
  by_cases hc : env.chip_id = BMP280_DEFAULT_CHIP_ID
  · have hInit : (bmp280Detect env s).2.1.bmp280InitDone = true := by
      simp [bmp280Detect, h0, hc]
    have hTrace : (bmp280Detect env s).2.2.2 =
        [BusOp.read BMP280_I2C_ADDR BMP280_CHIP_ID_REG 1,
         BusOp.read BMP280_I2C_ADDR BMP280_TEMPERATURE_CALIB_DIG_T1_LSB_REG
           BMP280_PRESSURE_TEMPERATURE_CALIB_DATA_LENGTH,
         BusOp.write BMP280_I2C_ADDR BMP280_CTRL_MEAS_REG BMP280_MODE] := by
      simp [bmp280Detect, h0, hc]
    have hshort : ∀ env'' : BusEnv,
        bmp280Detect env'' (bmp280Detect env s).2.1 =
          (true, (bmp280Detect env s).2.1, none, []) := by
      intro env''
      obtain ⟨s2, hs2⟩ : ∃ s2, (bmp280Detect env s).2.1 = s2 := ⟨_, rfl⟩
      rw [hs2] at hInit
      rw [hs2]
      simp [bmp280Detect, hInit]
    have hE : (bmp280Detect env' (bmp280Detect env s).2.1).2.2.2 = [] := by
      rw [hshort env']
    refine ⟨?_, ?_, hshort⟩
    · rw [hTrace, hE]; decide
    · rw [hTrace, hE]; decide
  · exfalso
    have hF : (bmp280Detect env s).1 = false := by
      simp [bmp280Detect, h0, hc]
    rw [hF] at h1
    exact Bool.noConfusion h1

/-- Witness for `bmp280Detect_idempotent`: fresh state, device answering
chip id `0x58` on both calls. -/
theorem bmp280Detect_idempotent_witness :
    (initialState.bmp280InitDone = false ∧ (bmp280Detect envOK initialState).1 = true) ∧
    (countCalibReads ((bmp280Detect envOK initialState).2.2.2 ++
        (bmp280Detect envOK (bmp280Detect envOK initialState).2.1).2.2.2) = 1 ∧
      countCtrlWrites ((bmp280Detect envOK initialState).2.2.2 ++
        (bmp280Detect envOK (bmp280Detect envOK initialState).2.1).2.2.2) = 1 ∧
      (∀ env'' : BusEnv,
        bmp280Detect env'' (bmp280Detect envOK initialState).2.1 =
          (true, (bmp280Detect envOK initialState).2.1, none, []))) :=
  ⟨⟨rfl, by decide⟩,
   bmp280Detect_idempotent envOK envOK initialState rfl (by decide)⟩

/-- **C7.** When not yet initialized, `bmp280Detect` returns `false` iff
the identity byte differs from `0x58`; on that failure it performs no
calibration read and no control-register write, leaves the initialized
flag unset, and does not populate the capability record. -/
theorem bmp280Detect_not_found (env : BusEnv) (s : bmp280_state)
    (h0 : s.bmp280InitDone = false) :
    ((bmp280Detect env s).1 = false ↔ env.chip_id ≠ BMP280_DEFAULT_CHIP_ID) ∧
    ((bmp280Detect env s).1 = false →
      countCalibReads (bmp280Detect env s).2.2.2 = 0 ∧
      countCtrlWrites (bmp280Detect env s).2.2.2 = 0 ∧
      (bmp280Detect env s).2.1.bmp280InitDone = false ∧
      (bmp280Detect env s).2.2.1 = none) := by
  by_cases hc : env.chip_id = BMP280_DEFAULT_CHIP_ID
  · constructor
    · simp [bmp280Detect, h0, hc]
    · intro hfail
      exfalso
      have hT : (bmp280Detect env s).1 = true := by simp [bmp280Detect, h0, hc]
      rw [hT] at hfail
      exact Bool.noConfusion hfail
  · have hT : (bmp280Detect env s).2.2.2 =
        [BusOp.read BMP280_I2C_ADDR BMP280_CHIP_ID_REG 1] := by
      simp [bmp280Detect, h0, hc]
    refine ⟨by simp [bmp280Detect, h0, hc], fun _ => ⟨?_, ?_, ?_, ?_⟩⟩
    · rw [hT]; decide
    · rw [hT]; decide
    · simp [bmp280Detect, h0, hc]
    · simp [bmp280Detect, h0, hc]

/-- Witness for `bmp280Detect_not_found`: fresh state, device answering
chip id `0x57`. -/
theorem bmp280Detect_not_found_witness :
    initialState.bmp280InitDone = false ∧
    (((bmp280Detect envBad initialState).1 = false ↔
        envBad.chip_id ≠ BMP280_DEFAULT_CHIP_ID) ∧
      ((bmp280Detect envBad initialState).1 = false →
        countCalibReads (bmp280Detect envBad initialState).2.2.2 = 0 ∧
        countCtrlWrites (bmp280Detect envBad initialState).2.2.2 = 0 ∧
        (bmp280Detect envBad initialState).2.1.bmp280InitDone = false ∧
        (bmp280Detect envBad initialState).2.2.1 = none)) :=
  ⟨rfl, bmp280Detect_not_found envBad initialState rfl⟩

/-- **C8.** On a successful first detection, the pressure-channel latency
bound equals the closed-form expression
`((T_INIT_MAX + T_MEASURE_PER_OSRS_MAX*(osrT_count + osrP_count) + T_SETUP_PRESSURE_MAX + 15) / 16) * 1000`
at the configured sampling counts (temperature ×1, pressure ×8), which is
23000 µs, and the closed form is monotonically nondecreasing in each
channel's sampling count. -/
theorem bmp280Detect_latency_bound (env : BusEnv) (s : bmp280_state)
    (h0 : s.bmp280InitDone = false)
    (hc : env.chip_id = BMP280_DEFAULT_CHIP_ID) :
    ((bmp280Detect env s).2.2.1 =
      some { ut_delay := 0,
             up_delay := bmp280_up_delay BMP280_TEMPERATURE_OSR BMP280_PRESSURE_OSR }) ∧
    bmp280_up_delay BMP280_TEMPERATURE_OSR BMP280_PRESSURE_OSR =
      latencyBoundClosedForm 1 8 ∧
    latencyBoundClosedForm 1 8 = 23000 ∧
    (∀ tc tc' pc pc' : ℕ, tc ≤ tc' → pc ≤ pc' →
      latencyBoundClosedForm tc pc ≤ latencyBoundClosedForm tc' pc') := by
  refine ⟨by simp [bmp280Detect, h0, hc], by decide, by decide,
    fun tc tc' pc pc' htc hpc => ?_⟩
  unfold latencyBoundClosedForm
  have hsum : T_INIT_MAX + T_MEASURE_PER_OSRS_MAX * (tc + pc) +
      T_SETUP_PRESSURE_MAX + 15 ≤
      T_INIT_MAX + T_MEASURE_PER_OSRS_MAX * (tc' + pc') +
      T_SETUP_PRESSURE_MAX + 15 := by
    have : tc + pc ≤ tc' + pc' := Nat.add_le_add htc hpc
    have := Nat.mul_le_mul_left T_MEASURE_PER_OSRS_MAX this
    omega
  exact Nat.mul_le_mul_right 1000 (Nat.div_le_div_right hsum)

/-- Witness for `bmp280Detect_latency_bound`: fresh state, device
answering chip id `0x58`. -/
theorem bmp280Detect_latency_bound_witness :
    (initialState.bmp280InitDone = false ∧ envOK.chip_id = BMP280_DEFAULT_CHIP_ID) ∧
    (((bmp280Detect envOK initialState).2.2.1 =
        some { ut_delay := 0,
               up_delay := bmp280_up_delay BMP280_TEMPERATURE_OSR BMP280_PRESSURE_OSR }) ∧
      bmp280_up_delay BMP280_TEMPERATURE_OSR BMP280_PRESSURE_OSR =
        latencyBoundClosedForm 1 8 ∧
      latencyBoundClosedForm 1 8 = 23000 ∧
      (∀ tc tc' pc pc' : ℕ, tc ≤ tc' → pc ≤ pc' →
        latencyBoundClosedForm tc pc ≤ latencyBoundClosedForm tc' pc')) :=
  ⟨⟨rfl, rfl⟩, bmp280Detect_latency_bound envOK initialState rfl rfl⟩
